import Mathlib

/-!
Verification of the langgraph-demo orchestration engine.

The Python sources under src/ declare a three-stage research pipeline
(prepare_research, run_deep_agent, finalize_research) over a typed State,
a per-run Context, a simple one-node graph, and a remote-client helper
(get_or_create_assistant).  The stage functions, the graph topology, the
middleware configuration and the client helper are translated from
src/agents/deep/agent.py, src/agents/simple/graph.py and src/main.py.
The generic engine pieces (state merge, sequential executor, the
add_messages reducer, the delegation ceilings, the model fallback
middleware) live in external packages or in files absent from src/, so
they are modelled from the specification, as flagged in each doc comment.
-/

set_option autoImplicit false

namespace LangGraphDemo

/-- A message record: role plus content, as in langchain message objects.
A HumanMessage carries role "human", an AI reply carries role "ai". -/
structure Message where
  role : String
  content : String
  deriving DecidableEq, Repr

/-- Constructor mirroring HumanMessage(content=query) from agent.py line 100. -/
def humanMessage (content : String) : Message :=
  Message.mk "human" content

/-- The State TypedDict of src/agents/deep/agent.py lines 56-62: messages
(reducer add_messages), query, research_complete.  The .get defaults used by
the stage functions are folded into a total record. -/
structure State where
  messages : List Message
  query : String
  research_complete : Bool
  deriving DecidableEq, Repr

/-- A partial state update as returned by a stage function: only the fields
present in the returned dict are set. -/
structure Update where
  messages : Option (List Message)
  query : Option String
  research_complete : Option Bool
  deriving DecidableEq, Repr

/-- Modelled from the spec: the Typed State Container merge of section 4.1.
For each field present in the update, an append-policy field (messages)
concatenates the new elements after the existing ones, and an
overwrite-policy field (query, research_complete) replaces the value;
fields absent from the update are carried over unchanged.  The merge code
itself is part of the langgraph engine, which is not under src/. -/
def applyUpdate (s : State) (u : Update) : State :=
  State.mk
    (match u.messages with
      | some ms => s.messages ++ ms
      | none => s.messages)
    (match u.query with
      | some q => q
      | none => s.query)
    (match u.research_complete with
      | some b => b
      | none => s.research_complete)

/-- Modelled from the spec: the add_messages reducer declared on the deep
State messages field (agent.py line 59).  Its implementation lives in the
langgraph package, not under src/; section 3 of the spec gives its policy as
append: new messages concatenated to the existing sequence. -/
def add_messages (current new : List Message) : List Message :=
  current ++ new

/-- The reducer declared on the simple State messages field
(src/agents/simple/graph.py line 44): operator.add, which on Python lists
is concatenation. -/
def addReducer (current new : List Message) : List Message :=
  current ++ new

/-- Default model name constant from agent.py line 38. -/
def DEFAULT_MODEL_NAME : String := "claude-sonnet-4-5-20250929"

/-- Default concurrency ceiling from agent.py line 40. -/
def DEFAULT_MAX_CONCURRENT_RESEARCH_UNITS : Nat := 3

/-- Default iteration ceiling from agent.py line 41. -/
def DEFAULT_MAX_RESEARCHER_ITERATIONS : Nat := 3

/-- The Context dataclass of agent.py lines 44-53: per-run configuration
with defaults.  The float temperature is modelled as a rational. -/
structure Context where
  model_name : String := DEFAULT_MODEL_NAME
  temperature : Rat := 0
  max_concurrent_research_units : Nat := DEFAULT_MAX_CONCURRENT_RESEARCH_UNITS
  max_researcher_iterations : Nat := DEFAULT_MAX_RESEARCHER_ITERATIONS
  deriving DecidableEq, Repr

/-- The four ceilings the Sub-agent Delegation Policy enforces for one run. -/
structure EnforcedLimits where
  modelCallLimit : Nat
  toolCallLimit : Nat
  maxConcurrent : Nat
  maxIterations : Nat
  deriving DecidableEq, Repr

/-- The ceilings run_deep_agent actually configures for a run with the given
Context, read off agent.py lines 112-117 and 135-141: the concurrency and
iteration ceilings are taken from the Context and passed to
_build_instructions, while ModelCallLimitMiddleware and
ToolCallLimitMiddleware are constructed with the literal thread_limit=10. -/
def enforcedLimits (ctx : Context) : EnforcedLimits :=
  EnforcedLimits.mk 10 10
    ctx.max_concurrent_research_units ctx.max_researcher_iterations

/-- The stage prepare_research of agent.py lines 93-105: when the query is
non-empty and the message list empty, the update carries the single initial
human message; otherwise it carries the incoming messages unchanged; the
update always sets research_complete to False and never touches query. -/
def prepare_research (s : State) : Update :=
  let messages :=
    if s.query ≠ "" ∧ s.messages = [] then [humanMessage s.query]
    else s.messages
  Update.mk (some messages) none (some false)

/-- The stage run_deep_agent of agent.py lines 108-152.  The deep agent it
invokes is an external collaborator, abstracted as a function from the input
message list to the message list of its result: the update carries
result.get("messages", []) and sets research_complete to True. -/
def run_deep_agent (agent : List Message → List Message) (s : State) : Update :=
  Update.mk (some (agent s.messages)) none (some true)

/-- The stage finalize_research of agent.py lines 155-158: its update
contains only research_complete = True. -/
def finalize_research (_s : State) : Update :=
  Update.mk none none (some true)

/-- The end marker of the graph. -/
def endMarker : String := "__end__"

/-- The start marker of the graph. -/
def startMarker : String := "__start__"

/-- The edge list declared by build_graph (agent.py lines 174-177):
START to prepare_research to run_deep_agent to finalize_research to END. -/
def buildGraphEdges : List (String × String) :=
  [(startMarker, "prepare_research"),
   ("prepare_research", "run_deep_agent"),
   ("run_deep_agent", "finalize_research"),
   ("finalize_research", endMarker)]

/-- The stage function bound to each node name by build_graph
(agent.py lines 169-171), parameterised by the external deep agent. -/
def nodeFn (agent : List Message → List Message) (name : String) :
    Option (State → Update) :=
  if name = "prepare_research" then some prepare_research
  else if name = "run_deep_agent" then some (run_deep_agent agent)
  else if name = "finalize_research" then some finalize_research
  else none

/-- Unique successor of a node in the edge list. -/
def nextNode (edges : List (String × String)) (n : String) : Option String :=
  (edges.find? (fun e => e.fst = n)).map Prod.snd

/-- Modelled from the spec: the Graph Compiler of section 4.2 linearises the
straight-line topology by following edges from the start marker; the fuel
bounds the walk by the number of edges. -/
def chainFrom : Nat → String → List String
  | 0, _ => []
  | Nat.succ fuel, n =>
    match nextNode buildGraphEdges n with
    | some m => if m = endMarker then [] else m :: chainFrom fuel m
    | none => []

/-- The execution order the compiled deep graph yields. -/
def compiledOrder : List String :=
  chainFrom buildGraphEdges.length startMarker

/-- Modelled from the spec: the Graph Executor of section 4.3 visits the
nodes in topological (here sequential) order, invoking each stage function
on the current state and merging its partial update via the section 4.1
merge. -/
def runPlan (agent : List Message → List Message)
    (order : List String) (s : State) : State :=
  order.foldl
    (fun st n =>
      match nodeFn agent n with
      | some fn => applyUpdate st (fn st)
      | none => st)
    s

/-- One full run of the compiled deep graph on an initial state. -/
def runGraph (agent : List Message → List Message) (s : State) : State :=
  runPlan agent compiledOrder s

/-- The initial State of the end-to-end scenario: query set, no messages,
completion flag at its default false. -/
def e2eInput : State :=
  State.mk [] "What is LangGraph?" false

/-- Outcome of one delegate step: either the task finishes with a result, or
it asks to re-invoke itself on a new task state. -/
inductive StepResult (α β : Type) where
  | finished : β → StepResult α β
  | again : α → StepResult α β

/-- Modelled from the spec: the iteration ceiling of the Sub-agent
Delegation Policy (section 4.4).  The enforcement text that run_deep_agent
installs is SUBAGENT_DELEGATION_INSTRUCTIONS, formatted with the ceiling in
_build_instructions (agent.py lines 69-80); the prompts module itself is not
under src/.  Per the spec, a delegate task may re-invoke itself at most M
times and, on reaching the ceiling, returns its best-effort result.  The
returned pair is the result together with the number of iterations used. -/
def runDelegate {α β : Type} (step : α → StepResult α β) (best : α → β) :
    Nat → α → β × Nat
  | 0, a => (best a, 0)
  | Nat.succ m, a =>
    match step a with
    | StepResult.finished b => (b, 1)
    | StepResult.again a2 =>
      let r := runDelegate step best m a2
      (r.fst, r.snd + 1)

/-- The secondary model identifier run_deep_agent configures on
ModelFallbackMiddleware (agent.py line 138). -/
def fallbackModelConfigured : String := "gpt-4o-mini"

/-- State of the fallback machine across the model invocations of one run:
whether fallback has been triggered, the model identifier used by each call
so far, and the recorded events. -/
structure FbState where
  fellBack : Bool
  callsMade : List String
  events : List String
  deriving DecidableEq, Repr

/-- Modelled from the spec: one model invocation under the Fallback policy
of section 4.4 (ModelFallbackMiddleware is external library code).  If the
primary model is usable the call uses it; on a permanent primary failure the
secondary model is substituted, the substitution is recorded as an event,
and every later call keeps using the secondary model. -/
def fbStep (primary secondary : String) (primaryUsable : Bool)
    (st : FbState) : FbState :=
  if st.fellBack then
    FbState.mk true (st.callsMade ++ [secondary]) st.events
  else if primaryUsable then
    FbState.mk false (st.callsMade ++ [primary]) st.events
  else
    FbState.mk true (st.callsMade ++ [secondary])
      (st.events ++ ["fallback:" ++ secondary])

/-- A run of n model invocations under the fallback policy. -/
def fbRun (primary secondary : String) (primaryUsable : Bool) :
    Nat → FbState
  | 0 => FbState.mk false [] []
  | Nat.succ n => fbStep primary secondary primaryUsable
      (fbRun primary secondary primaryUsable n)

/-- Observable resource events of the run_deep_agent stage body. -/
inductive SandboxEvent where
  | acquire
  | invoke
  | release
  deriving DecidableEq, Repr

/-- How the stage body inside the sandbox scope ends: normal completion, a
raised failure, or cancellation of the surrounding task. -/
inductive StageOutcome where
  | success
  | failure
  | cancelled
  deriving DecidableEq, Repr

/-- The Python with-statement guarantee for a context manager: the resource
is acquired on entry and released on every exit of the block, whether the
body returned, raised, or was cancelled (CancelledError propagates as an
exception through the block). -/
def pyWithTrace (body : List SandboxEvent) : List SandboxEvent :=
  SandboxEvent.acquire :: (body ++ [SandboxEvent.release])

/-- The body run_deep_agent places inside the create_sandbox scope
(agent.py lines 131-147): the deep agent is built and invoked there; the
outcome classifies how the single awaited invocation ended, and in each
case the invocation is attempted inside the scope. -/
def stageBodyTrace (_o : StageOutcome) : List SandboxEvent :=
  [SandboxEvent.invoke]

/-- The resource-event trace of one execution of run_deep_agent with the
given outcome: the create_sandbox context manager wraps the agent
invocation (agent.py lines 127-147). -/
def run_deep_agent_events (o : StageOutcome) : List SandboxEvent :=
  pyWithTrace (stageBodyTrace o)

/-- A remote assistant record: identifier, bound graph, display name and
metadata dictionary, as stored by the hosted service. -/
structure Assistant where
  assistant_id : Nat
  graph_id : String
  name : String
  metadata : List (String × String)
  deriving DecidableEq, Repr

/-- The store of assistants held by the remote service, with a counter for
fresh identifiers. -/
structure ClientState where
  assistants : List Assistant
  nextId : Nat
  deriving DecidableEq, Repr

/-- Modelled from the spec: the remote lookup behind
client.assistants.search(metadata=...) — the Remote Run Client wire
contract of section 6; the service is external.  It returns the assistants
whose metadata dictionary contains every given key-value pair. -/
def searchAssistants (st : ClientState) (md : List (String × String)) :
    List Assistant :=
  st.assistants.filter (fun a => md.all (fun kv => kv ∈ a.metadata))

/-- Modelled from the spec: the remote creation behind
client.assistants.create(graph_id=..., name=...) as called in main.py lines
35-40 — the service stores a fresh assistant with the given graph and name.
The call passes no metadata argument, so the stored metadata dictionary is
empty. -/
def createAssistant (st : ClientState) (graph_id name : String) :
    ClientState × Assistant :=
  let a := Assistant.mk st.nextId graph_id name []
  (ClientState.mk (st.assistants ++ [a]) (st.nextId + 1), a)

/-- The helper get_or_create_assistant of src/main.py lines 21-40: search
the service for assistants whose metadata carries the name; if any exists
return the first, else create one with graph_id and name. -/
def get_or_create_assistant (st : ClientState) (name graph_id : String) :
    ClientState × Assistant :=
  match searchAssistants st [("name", name)] with
  | a :: _ => (st, a)
  | [] => createAssistant st graph_id name

/-- Claim C1: running the compiled deep graph on the initial State with
query What is LangGraph? and empty messages executes prepare_research,
run_deep_agent and finalize_research in that order, and, whenever the deep
agent completes successfully (returns a non-empty message list), the final
State has research_complete true and its message list holds at least one
entry beyond the initial human query message. -/
theorem c1_end_to_end (agent : List Message → List Message)
    (h : agent [humanMessage "What is LangGraph?"] ≠ []) :
    compiledOrder = ["prepare_research", "run_deep_agent", "finalize_research"] ∧
    (runGraph agent e2eInput).research_complete = true ∧
    (runGraph agent e2eInput).messages =
      humanMessage "What is LangGraph?" ::
        agent [humanMessage "What is LangGraph?"] ∧
    1 < (runGraph agent e2eInput).messages.length := by
  refine ⟨by decide, rfl, rfl, ?_⟩
  have hm : (runGraph agent e2eInput).messages =
      humanMessage "What is LangGraph?" ::
        agent [humanMessage "What is LangGraph?"] := rfl
  have hl : 0 < (agent [humanMessage "What is LangGraph?"]).length :=
    List.length_pos.mpr h
  rw [hm, List.length_cons]
  omega

/-- Witness for C1 at the concrete agent returning one AI message. -/
theorem c1_end_to_end_witness :
    compiledOrder = ["prepare_research", "run_deep_agent", "finalize_research"] ∧
    (runGraph (fun _ => [Message.mk "ai" "resp"]) e2eInput).research_complete = true ∧
    (runGraph (fun _ => [Message.mk "ai" "resp"]) e2eInput).messages =
      humanMessage "What is LangGraph?" :: [Message.mk "ai" "resp"] ∧
    1 < (runGraph (fun _ => [Message.mk "ai" "resp"]) e2eInput).messages.length :=
  c1_end_to_end (fun _ => [Message.mk "ai" "resp"]) (by decide)

/-- Counterexample to claim C2: the per-run model-call and tool-call
ceilings configured by run_deep_agent are the literal 10, equal for every
Context and different from both configurable Context limit fields of a
Context whose limits are 7 and 9, so they are fixed constants rather than
configurable via Context. -/
theorem c2_limits_counterexample :
    (enforcedLimits (Context.mk "m" 0 7 9)).modelCallLimit = 10 ∧
    (enforcedLimits (Context.mk "m" 0 7 9)).toolCallLimit = 10 ∧
    (enforcedLimits (Context.mk "m" 0 7 9)).modelCallLimit ≠ 7 ∧
    (enforcedLimits (Context.mk "m" 0 7 9)).modelCallLimit ≠ 9 ∧
    (enforcedLimits (Context.mk "m" 0 7 9)).toolCallLimit ≠ 7 ∧
    (enforcedLimits (Context.mk "m" 0 7 9)).toolCallLimit ≠ 9 ∧
    (enforcedLimits (Context.mk "m" 0 7 9)).modelCallLimit =
      (enforcedLimits (Context.mk "n" 1 4 5)).modelCallLimit ∧
    (enforcedLimits (Context.mk "m" 0 7 9)).toolCallLimit =
      (enforcedLimits (Context.mk "n" 1 4 5)).toolCallLimit := by
  refine ⟨rfl, rfl, by decide, by decide, by decide, by decide, rfl, rfl⟩

/-- Claim C2 as amended: for every Context, the delegate concurrency and
iteration ceilings enforced for the run equal the Context fields
max_concurrent_research_units and max_researcher_iterations, while the
per-run model-call and tool-call ceilings are the fixed constant 10. -/
theorem c2_limits_amended (ctx : Context) :
    (enforcedLimits ctx).maxConcurrent = ctx.max_concurrent_research_units ∧
    (enforcedLimits ctx).maxIterations = ctx.max_researcher_iterations ∧
    (enforcedLimits ctx).modelCallLimit = 10 ∧
    (enforcedLimits ctx).toolCallLimit = 10 :=
  ⟨rfl, rfl, rfl, rfl⟩

/-- Claim C3: under the iteration ceiling M, delegate execution is a total
function whose iteration count never exceeds M, and a delegate task that
would re-invoke itself forever (its step always asks to run again) is
forced to stop and return its best-effort result after exactly M
iterations. -/
theorem c3_iteration_ceiling {α β : Type} (step : α → StepResult α β)
    (best : α → β) (M : Nat) (a : α) :
    (runDelegate step best M a).snd ≤ M ∧
    (∀ f : α → α, (∀ x, step x = StepResult.again (f x)) →
      runDelegate step best M a = (best (f^[M] a), M)) := by
  induction M generalizing a with
  | zero => exact ⟨Nat.le_refl 0, fun f _ => rfl⟩
  | succ m ih =>
    constructor
    · cases hs : step a with
      | finished b =>
        simp [runDelegate, hs]
      | again a2 =>
        have h2 := (ih a2).1
        simp [runDelegate, hs]
        omega
    · intro f hf
      have hs := hf a
      have h2 := (ih (f a)).2 f hf
      simp [runDelegate, hs, h2, Function.iterate_succ_apply]

/-- Witness for C3: the always-looping step on Nat with ceiling 2 stops
after exactly 2 iterations and returns the best-effort value. -/
theorem c3_iteration_ceiling_witness :
    (runDelegate (fun n : Nat => StepResult.again (n + 1)) (fun n => n) 2 0).snd ≤ 2 ∧
    runDelegate (fun n : Nat => StepResult.again (n + 1)) (fun n => n) 2 0 =
      ((fun n : Nat => n + 1)^[2] 0, 2) := by
  have h := c3_iteration_ceiling
    (fun n : Nat => StepResult.again (n + 1)) (fun n => n) 2 0
  exact ⟨h.1, h.2 (fun n => n + 1) (fun _ => rfl)⟩

/-- Counterexample to claim C4: run_deep_agent comes strictly before
finalize_research in the compiled order, yet its partial update already
sets research_complete to true, so the flag is not set true only by the
terminal-producing stage. -/
theorem c4_flag_counterexample :
    List.indexOf "run_deep_agent" compiledOrder <
      List.indexOf "finalize_research" compiledOrder ∧
    (run_deep_agent (fun ms => ms) (State.mk [] "q" false)).research_complete =
      some true := by
  decide

/-- Claim C4 as amended: prepare_research sets the completion flag to
false, and the flag is set to true by both run_deep_agent and
finalize_research, not only by the final stage. -/
theorem c4_flag_amended (agent : List Message → List Message) (s : State) :
    (prepare_research s).research_complete = some false ∧
    (run_deep_agent agent s).research_complete = some true ∧
    (finalize_research s).research_complete = some true :=
  ⟨rfl, rfl, rfl⟩

/-- Claim C5: merging a partial update that carries a messages field
appends, for the simple graph reducer, the deep graph reducer and the
state merge alike: the result is the existing sequence followed by the new
elements, never a replacement. -/
theorem c5_append_policy (current new : List Message) :
    add_messages current new = current ++ new ∧
    addReducer current new = current ++ new ∧
    ∀ (s : State) (ms : List Message),
      (applyUpdate s (Update.mk (some ms) none none)).messages =
        s.messages ++ ms :=
  ⟨rfl, rfl, fun _ _ => rfl⟩

/-- Claim C6: fields absent from a partial update are unchanged by the
merge; in particular the finalize_research update, which carries only
research_complete, leaves messages and query of any State exactly as they
were. -/
theorem c6_frame (s : State) (u : Update) :
    (u.messages = none → (applyUpdate s u).messages = s.messages) ∧
    (u.query = none → (applyUpdate s u).query = s.query) ∧
    (u.research_complete = none →
      (applyUpdate s u).research_complete = s.research_complete) ∧
    (applyUpdate s (finalize_research s)).messages = s.messages ∧
    (applyUpdate s (finalize_research s)).query = s.query := by
  refine ⟨?_, ?_, ?_, rfl, rfl⟩ <;> intro h <;> simp [applyUpdate, h]

/-- Witness for C6 at a concrete state and update. -/
theorem c6_frame_witness :
    (applyUpdate (State.mk [humanMessage "q"] "q" false)
        (Update.mk none none (some true))).messages = [humanMessage "q"] ∧
    (applyUpdate (State.mk [humanMessage "q"] "q" false)
        (Update.mk none none (some true))).query = "q" ∧
    (applyUpdate (State.mk [humanMessage "q"] "q" false)
        (finalize_research (State.mk [humanMessage "q"] "q" false))).messages =
      [humanMessage "q"] := by
  have h := c6_frame (State.mk [humanMessage "q"] "q" false)
    (Update.mk none none (some true))
  exact ⟨h.1 rfl, h.2.1 rfl, h.2.2.2.1⟩

/-- Claim C7, evaluated at the failing input: starting from a service with
no assistants, the first call of get_or_create_assistant creates one, but
the created record carries no name entry in its metadata, so the metadata
search of a second call with the same name finds nothing and a second
assistant is created — the second call is a creation, not a lookup. -/
theorem c7_duplicate_creation :
    (get_or_create_assistant (ClientState.mk [] 0)
        "Creative Assistant" "deep").fst.assistants.length = 1 ∧
    searchAssistants
        (get_or_create_assistant (ClientState.mk [] 0)
          "Creative Assistant" "deep").fst
        [("name", "Creative Assistant")] = [] ∧
    (get_or_create_assistant
        (get_or_create_assistant (ClientState.mk [] 0)
          "Creative Assistant" "deep").fst
        "Creative Assistant" "deep").fst.assistants.length = 2 := by
  decide

theorem fbRun_primary_down (primary secondary : String) (n : Nat) :
    fbRun primary secondary false (n + 1) =
      FbState.mk true (List.replicate (n + 1) secondary)
        ["fallback:" ++ secondary] := by
  induction n with
  | zero => rfl
  | succ m ih =>
    show fbStep primary secondary false (fbRun primary secondary false (m + 1)) = _
    rw [ih]
    simp [fbStep, List.replicate_succ']

/-- Claim C8: in a run whose primary model is permanently unusable, every
one of the n model invocations is carried out with the configured secondary
model gpt-4o-mini, the substitution is recorded as an observable event, and
the run still completes all n calls rather than failing. -/
theorem c8_fallback (primary : String) (n : Nat) (h : 1 ≤ n) :
    (fbRun primary fallbackModelConfigured false n).callsMade =
      List.replicate n fallbackModelConfigured ∧
    (fbRun primary fallbackModelConfigured false n).events =
      ["fallback:" ++ fallbackModelConfigured] ∧
    (fbRun primary fallbackModelConfigured false n).callsMade.length = n := by
  obtain ⟨m, rfl⟩ : ∃ m, n = m + 1 := ⟨n - 1, (Nat.succ_pred_eq_of_pos h).symm⟩
  rw [fbRun_primary_down]
  exact ⟨rfl, rfl, by simp⟩

/-- Witness for C8: three calls with the primary permanently down all use
the secondary model and record the substitution. -/
theorem c8_fallback_witness :
    (fbRun "claude-sonnet-4-5-20250929" fallbackModelConfigured false 3).callsMade =
      List.replicate 3 fallbackModelConfigured ∧
    (fbRun "claude-sonnet-4-5-20250929" fallbackModelConfigured false 3).events =
      ["fallback:" ++ fallbackModelConfigured] ∧
    (fbRun "claude-sonnet-4-5-20250929" fallbackModelConfigured false 3).callsMade.length = 3 :=
  c8_fallback "claude-sonnet-4-5-20250929" 3 (by decide)

/-- Claim C9: for every outcome of the run_deep_agent stage — success,
raised failure or cancellation — the sandbox is acquired first, the agent
invocation happens inside the acquisition scope, and the sandbox release is
the last event of the stage, so the resource is released on every exit
path. -/
theorem c9_sandbox_scope (o : StageOutcome) :
    run_deep_agent_events o =
      [SandboxEvent.acquire, SandboxEvent.invoke, SandboxEvent.release] ∧
    (run_deep_agent_events o).head? = some SandboxEvent.acquire ∧
    (run_deep_agent_events o).getLast? = some SandboxEvent.release := by
  refine ⟨rfl, rfl, ?_⟩
  cases o <;> decide

/-- Claim C10: the prepare_research update always sets research_complete to
false and never touches query; its messages field is the singleton initial
human message exactly when the incoming query is non-empty and the incoming
messages are empty, and is the incoming messages unchanged in every other
case. -/
theorem c10_prepare_research (s : State) :
    (prepare_research s).research_complete = some false ∧
    (prepare_research s).query = none ∧
    ((s.query ≠ "" ∧ s.messages = []) →
      (prepare_research s).messages = some [humanMessage s.query]) ∧
    (¬(s.query ≠ "" ∧ s.messages = []) →
      (prepare_research s).messages = some s.messages) := by
  refine ⟨rfl, rfl, fun h => ?_, fun h => ?_⟩
  · simp only [prepare_research]
    rw [if_pos h]
  · simp only [prepare_research]
    rw [if_neg h]

/-- Witness for C10 at a fresh-query state and at a state that already has
messages. -/
theorem c10_prepare_research_witness :
    (prepare_research (State.mk [] "q" false)).messages =
      some [humanMessage "q"] ∧
    (prepare_research (State.mk [humanMessage "x"] "q" false)).messages =
      some [humanMessage "x"] ∧
    (prepare_research (State.mk [] "q" false)).research_complete = some false := by
  refine ⟨(c10_prepare_research (State.mk [] "q" false)).2.2.1 (by decide),
    (c10_prepare_research (State.mk [humanMessage "x"] "q" false)).2.2.2 (by decide),
    (c10_prepare_research (State.mk [] "q" false)).1⟩

end LangGraphDemo
